import Mathlib

/-!
Shallow embedding of `NetworkNamespaceManagerImpl` from
`guest/gce_network/network_namespace_manager.cpp` (android-cuttlefish).

Strings are Lean `String`s; the filesystem visible to the manager is a
`FsState` (the symlinks and regular files under `/var/run/netns`); the
outcomes of the OS calls the manager delegates to (`symlink`, `open`,
`write`, `Unshare`, `SetNs`, `Clone`) are supplied by a `SysEnv` oracle so
that every error path of the source is reachable in the model.
-/

/-- C-locale `isalnum` restricted to the ASCII range, as used on the bytes of
a `std::string` by `GetNamespacePath`. -/
def isalnum (c : Char) : Bool :=
  (48 ≤ c.toNat && c.toNat ≤ 57) || (65 ≤ c.toNat && c.toNat ≤ 90) ||
    (97 ≤ c.toNat && c.toNat ≤ 122)

/-- The character-by-character sanitisation loop of `GetNamespacePath`:
every character for which `isalnum` is false becomes `_`. -/
def sanitizeLoop : List Char → List Char
  | [] => []
  | c :: rest => (if isalnum c then c else '_') :: sanitizeLoop rest

/-- `kNetNsFolder`: folder hosting the persisted network namespaces. -/
def kNetNsFolder : String := "/var/run/netns"

/-- `kNamespaces`: the NULL-terminated tag array `{ "mnt", "net", "ipc" }`,
modelled as the list of its non-NULL entries, in order. -/
def kNamespaces : List String := ["mnt", "net", "ipc"]

/-- Clone flags, modelled as the set of namespace kinds whose creation is
requested (one Boolean per kind instead of a C bit mask). -/
structure CloneFlags where
  newNS : Bool
  newNet : Bool
  newIPC : Bool
deriving DecidableEq

/-- Modelled from the spec: the flag constant requesting a new mount
namespace; the numeric constants live in the SysClient header, which is not
part of this excerpt, so each is modelled as the kind set it denotes. -/
def kCloneNewNS : CloneFlags := ⟨true, false, false⟩

/-- Modelled from the spec: the flag constant requesting a new network
namespace. -/
def kCloneNewNet : CloneFlags := ⟨false, true, false⟩

/-- Modelled from the spec: the flag constant requesting a new IPC
namespace. -/
def kCloneNewIPC : CloneFlags := ⟨false, false, true⟩

/-- Bitwise-or of clone flags. -/
def CloneFlags.or (a b : CloneFlags) : CloneFlags :=
  ⟨a.newNS || b.newNS, a.newNet || b.newNet, a.newIPC || b.newIPC⟩

/-- `kNamespaceTypes = CloneFlags(kCloneNewNS | kCloneNewNet | kCloneNewIPC)`. -/
def kNamespaceTypes : CloneFlags := (kCloneNewNS.or kCloneNewNet).or kCloneNewIPC

/-- `GetNamespacePath(ns_name, type)`: sanitise the name character by
character, then build `kNetNsFolder + "/" + new_name + "." + type`. -/
def GetNamespacePath (ns_name : String) (type : String) : String :=
  kNetNsFolder ++ "/" ++ String.mk (sanitizeLoop ns_name.data) ++ "." ++ type

/-- The source path `"/proc/%d/ns/%s"` printed for the holder pid and a tag. -/
def procNsPath (pid : Nat) (tag : String) : String :=
  "/proc/" ++ toString pid ++ "/ns/" ++ tag

/-- The destination path `"/var/run/netns/%s.%s"` printed from the RAW
namespace name and a tag (`CreateNetworkNamespace` does not sanitise). -/
def globNsPath (ns_name : String) (tag : String) : String :=
  "/var/run/netns/" ++ ns_name ++ "." ++ tag

/-- The filesystem slice the manager manipulates: symlinks (destination path
paired with link target) and regular files (path paired with content). -/
structure FsState where
  symlinks : List (String × String) := []
  files : List (String × String) := []
deriving DecidableEq

/-- Whether a path is already taken in the filesystem slice. -/
def pathExists (fs : FsState) (p : String) : Bool :=
  (fs.symlinks.any fun e => e.1 == p) || (fs.files.any fun e => e.1 == p)

/-- Oracle for the outcomes of the delegated OS calls: the pid `Clone`
hands back, spurious `symlink` errors (beyond the destination already
existing), spurious `open(O_CREAT|O_EXCL)` errors (beyond the file already
existing), the byte count returned by `write` for a requested size, the
ignored return value of `Unshare`, `setns` failures per namespace path, and
the descriptor `open(O_RDONLY)` yields per path. -/
structure SysEnv where
  clonePid : Nat
  symlinkErr : String → Bool
  openErr : String → Bool
  writeBytes : Nat → Nat
  unshareRet : Int
  setnsErr : String → Bool
  fdFor : String → Nat

/-- One `symlink(src, dst)` call: fails (leaving the filesystem unchanged)
if the destination exists or the oracle reports an error; the failure is
only logged by the source, so no status is returned. -/
def symlinkStep (env : SysEnv) (fs : FsState) (src dst : String) : FsState :=
  if pathExists fs dst || env.symlinkErr dst then fs
  else { fs with symlinks := fs.symlinks ++ [(dst, src)] }

/-- The symlink loop of `CreateNetworkNamespace` over the `kNamespaces`
tags: `symlink("/proc/<pid>/ns/<tag>", "/var/run/netns/<ns_name>.<tag>")`,
continuing past failures. -/
def bindLoop (env : SysEnv) (pid : Nat) (ns_name : String) :
    FsState → List String → FsState
  | fs, [] => fs
  | fs, tag :: rest =>
      bindLoop env pid ns_name
        (symlinkStep env fs (procNsPath pid tag) (globNsPath ns_name tag)) rest

/-- Result of `CreateNetworkNamespace`: the filesystem afterwards, the
returned status, and the flags that were passed to `Clone`. -/
structure CreateResult where
  fs : FsState
  ret : Bool
  cloneFlags : CloneFlags
deriving DecidableEq

/-- `CreateNetworkNamespace(ns_name, new_namespace, is_paranoid)`: clone the
holder with `new_namespace ? kNamespaceTypes : kCloneNewNS`; attempt the
three namespace symlinks (failures logged only); then exclusively create the
pid-record file `"/var/run/netns/%s.process"` — failure here returns false —
and write the decimal pid, a short write being logged only. -/
def CreateNetworkNamespace (env : SysEnv) (fs : FsState) (ns_name : String)
    (new_namespace : Bool) (is_paranoid : Bool) : CreateResult :=
  let flags := if new_namespace then kNamespaceTypes else kCloneNewNS
  let pid := env.clonePid
  let fs1 := bindLoop env pid ns_name fs kNamespaces
  let pidPath := globNsPath ns_name "process"
  if pathExists fs1 pidPath || env.openErr pidPath then
    { fs := fs1, ret := false, cloneFlags := flags }
  else
    let pidStr := toString pid
    let written := min (env.writeBytes pidStr.length) pidStr.length
    { fs := { fs1 with files := fs1.files ++ [(pidPath, String.mk (pidStr.data.take written))] },
      ret := true, cloneFlags := flags }

/-- `GetNamespaceDescriptor(ns_name)`: open the sanitised `"net"` path
read-only; `-1` on failure, the (non-negative) descriptor otherwise. -/
def GetNamespaceDescriptor (env : SysEnv) (fs : FsState) (ns_name : String) : Int :=
  let p := GetNamespacePath ns_name "net"
  if pathExists fs p && !env.openErr p then Int.ofNat (env.fdFor p) else -1

/-- The calling process's namespace membership: the namespace paths it has
successfully entered via `setns`, in order. -/
structure ProcState where
  joined : List String := []
deriving DecidableEq

/-- Result of `SwitchNamespace`: the process state afterwards, the returned
status, and the flags that were passed to `Unshare`. -/
structure SwitchResult where
  st : ProcState
  ret : Bool
  unshareFlags : CloneFlags
deriving DecidableEq

/-- Whether, for a namespace path, the open succeeds (path present, no open
error) and the subsequent `setns` succeeds. -/
def switchOk (env : SysEnv) (fs : FsState) (p : String) : Bool :=
  (pathExists fs p && !env.openErr p) && !env.setnsErr p

/-- The loop of `SwitchNamespace` over the `kNamespaces` tags: resolve the
sanitised path, open it read-only (failure returns false), `setns` (failure
returns false), close, continue; namespaces entered before a failure stay
entered. -/
def switchLoop (env : SysEnv) (fs : FsState) (ns_name : String) :
    ProcState → List String → ProcState × Bool
  | st, [] => (st, true)
  | st, tag :: rest =>
      let p := GetNamespacePath ns_name tag
      if pathExists fs p && !env.openErr p then
        if env.setnsErr p then (st, false)
        else switchLoop env fs ns_name { st with joined := st.joined ++ [p] } rest
      else (st, false)

/-- `SwitchNamespace(ns_name)`: call `Unshare(kNamespaceTypes)` with the
return value not inspected, then run the switch loop over `kNamespaces`. -/
def SwitchNamespace (env : SysEnv) (fs : FsState) (ns_name : String)
    (st : ProcState) : SwitchResult :=
  let r := switchLoop env fs ns_name st kNamespaces
  { st := r.1, ret := r.2, unshareFlags := kNamespaceTypes }

/-- `CreateNamespaceRootFolder()`: false exactly when `gce_fs_mkdirs`
(modelled by its oracle return value) reports failure. -/
def CreateNamespaceRootFolder (mkdirRet : Int) : Bool :=
  if mkdirRet ≠ 0 then false else true

/-- The constructed manager object, holding its `SysClient`. -/
structure NetworkNamespaceManagerImpl where
  sys_client : SysEnv

/-- `NetworkNamespaceManager::New(sys_client)`: NULL in, NULL out with no
side effect; otherwise construct and attempt the root folder, deleting the
manager and returning NULL when that fails. The second component records
whether root-folder creation was attempted. -/
def NetworkNamespaceManager.New (sys_client : Option SysEnv) (mkdirRet : Int) :
    Option NetworkNamespaceManagerImpl × Bool :=
  match sys_client with
  | none => (none, false)
  | some sc =>
      if CreateNamespaceRootFolder mkdirRet then (some ⟨sc⟩, true)
      else (none, true)

/-- Resolve as the spec words it: replaces every character for which
`isalnum` is false with `_`; appends `.` plus the kind's tag; rooted at the
fixed persisted-namespace directory. -/
def ResolveSpec (name : String) (kind : String) : String :=
  "/var/run/netns" ++ "/" ++
    String.mk (name.data.map fun c => if isalnum c then c else '_') ++ "." ++ kind

/-- The empty filesystem slice. -/
def fs0 : FsState := { symlinks := [], files := [] }

/-- A concrete error-free oracle used for witnesses and counterexamples. -/
def env0 : SysEnv :=
  { clonePid := 1234
    symlinkErr := fun _ => false
    openErr := fun _ => false
    writeBytes := fun n => n
    unshareRet := 0
    setnsErr := fun _ => false
    fdFor := fun _ => 3 }

/-- `env0` with a `write` that always reports 0 bytes written (every write
is short). -/
def envShort : SysEnv := { env0 with writeBytes := fun _ => 0 }

lemma string_data_append (a b : String) : (a ++ b).data = a.data ++ b.data := rfl

lemma globNsPath_tag_ne (n : String) {t₁ t₂ : String} (h : t₁ ≠ t₂) :
    globNsPath n t₁ ≠ globNsPath n t₂ := by
  intro he
  apply h
  have hd : ("/var/run/netns/" ++ n ++ "." : String).data ++ t₁.data
      = ("/var/run/netns/" ++ n ++ "." : String).data ++ t₂.data :=
    congrArg String.data he
  exact String.ext (List.append_cancel_left hd)

lemma pathExists_append_symlink (fs : FsState) (e : String × String) (p : String) :
    pathExists { fs with symlinks := fs.symlinks ++ [e] } p
      = (pathExists fs p || (e.1 == p)) := by
  simp only [pathExists, List.any_append, List.any_cons, List.any_nil, Bool.or_false]
  cases fs.symlinks.any fun x => x.1 == p <;>
    cases fs.files.any fun x => x.1 == p <;> cases e.1 == p <;> rfl

lemma pathExists_append_file (fs : FsState) (e : String × String) (p : String) :
    pathExists { fs with files := fs.files ++ [e] } p
      = (pathExists fs p || (e.1 == p)) := by
  simp only [pathExists, List.any_append, List.any_cons, List.any_nil, Bool.or_false]
  cases fs.symlinks.any fun x => x.1 == p <;>
    cases fs.files.any fun x => x.1 == p <;> cases e.1 == p <;> rfl

lemma symlinkStep_files (env : SysEnv) (fs : FsState) (src dst : String) :
    (symlinkStep env fs src dst).files = fs.files := by
  unfold symlinkStep
  split <;> rfl

lemma pathExists_symlinkStep_ne (env : SysEnv) (fs : FsState) (src dst p : String)
    (h : dst ≠ p) :
    pathExists (symlinkStep env fs src dst) p = pathExists fs p := by
  unfold symlinkStep
  split
  · rfl
  · rw [pathExists_append_symlink]
    simp [h]

lemma bindLoop_files (env : SysEnv) (pid : Nat) (n : String) :
    ∀ (tags : List String) (fs : FsState),
      (bindLoop env pid n fs tags).files = fs.files := by
  intro tags
  induction tags with
  | nil => intro fs; rfl
  | cons t rest ih =>
      intro fs
      simp only [bindLoop]
      rw [ih, symlinkStep_files]

lemma pathExists_bindLoop (env : SysEnv) (pid : Nat) (n : String) (p : String) :
    ∀ (tags : List String) (fs : FsState), (∀ t ∈ tags, globNsPath n t ≠ p) →
      pathExists (bindLoop env pid n fs tags) p = pathExists fs p := by
  intro tags
  induction tags with
  | nil => intro fs _; rfl
  | cons t rest ih =>
      intro fs h
      simp only [bindLoop]
      rw [ih _ fun u hu => h u (List.mem_cons_of_mem _ hu),
        pathExists_symlinkStep_ne _ _ _ _ _ (h t (List.mem_cons_self _ _))]

lemma symlinkStep_symlinks_extend (env : SysEnv) (fs : FsState) (src dst : String) :
    ∃ ex, (symlinkStep env fs src dst).symlinks = fs.symlinks ++ ex := by
  unfold symlinkStep
  split
  · exact ⟨[], by simp⟩
  · exact ⟨[(dst, src)], rfl⟩

lemma bindLoop_symlinks_extend (env : SysEnv) (pid : Nat) (n : String) :
    ∀ (tags : List String) (fs : FsState),
      ∃ ex, (bindLoop env pid n fs tags).symlinks = fs.symlinks ++ ex := by
  intro tags
  induction tags with
  | nil => intro fs; exact ⟨[], by simp [bindLoop]⟩
  | cons t rest ih =>
      intro fs
      simp only [bindLoop]
      obtain ⟨ex₁, hex₁⟩ := symlinkStep_symlinks_extend env fs (procNsPath pid t) (globNsPath n t)
      obtain ⟨ex₂, hex₂⟩ := ih (symlinkStep env fs (procNsPath pid t) (globNsPath n t))
      exact ⟨ex₁ ++ ex₂, by rw [hex₂, hex₁, List.append_assoc]⟩

lemma kNamespaces_glob_ne_process (n : String) :
    ∀ t ∈ kNamespaces, globNsPath n t ≠ globNsPath n "process" := by
  intro t ht
  apply globNsPath_tag_ne
  fin_cases ht <;> decide

lemma isalnum_underscore : isalnum '_' = false := rfl

lemma sanitizeLoop_eq_map (l : List Char) :
    sanitizeLoop l = l.map fun c => if isalnum c then c else '_' := by
  induction l with
  | nil => rfl
  | cons c rest ih => simp [sanitizeLoop, ih]

lemma sanitizeLoop_idem (l : List Char) :
    sanitizeLoop (sanitizeLoop l) = sanitizeLoop l := by
  induction l with
  | nil => rfl
  | cons c rest ih =>
      by_cases h : isalnum c = true
      · simp [sanitizeLoop, h, ih]
      · simp [sanitizeLoop, h, ih, isalnum_underscore]

lemma sanitizeLoop_id_of_alnum :
    ∀ l : List Char, l.all isalnum = true → sanitizeLoop l = l := by
  intro l
  induction l with
  | nil => intro _; rfl
  | cons c rest ih =>
      intro h
      rw [List.all_cons, Bool.and_eq_true] at h
      simp [sanitizeLoop, h.1, ih h.2]

lemma sanitizeLoop_congr :
    ∀ l₁ l₂ : List Char, l₁.length = l₂.length →
      ((l₁.zip l₂).all fun p => p.1 == p.2 || (!isalnum p.1 && !isalnum p.2)) = true →
      sanitizeLoop l₁ = sanitizeLoop l₂ := by
  intro l₁
  induction l₁ with
  | nil =>
      intro l₂ hl _
      cases l₂ with
      | nil => rfl
      | cons d r => simp at hl
  | cons c rest ih =>
      intro l₂ hl hz
      cases l₂ with
      | nil => simp at hl
      | cons d rest₂ =>
          rw [List.zip_cons_cons, List.all_cons, Bool.and_eq_true] at hz
          obtain ⟨hhead, htail⟩ := hz
          have hrec := ih rest₂ (by simpa using hl) htail
          rw [Bool.or_eq_true, beq_iff_eq, Bool.and_eq_true,
            Bool.not_eq_true', Bool.not_eq_true'] at hhead
          rcases hhead with hcd | ⟨h1, h2⟩
          · have hcd' : c = d := hcd
            simp [sanitizeLoop, hcd', hrec]
          · have h1' : isalnum c = false := h1
            have h2' : isalnum d = false := h2
            simp [sanitizeLoop, h1', h2', hrec]

lemma netns_folder_data :
    ("/var/run/netns" : String).data ++ ("/" : String).data
      = ("/var/run/netns/" : String).data := by decide

lemma glob_eq_resolve_iff (n : String) (t : String) :
    globNsPath n t = GetNamespacePath n t ↔ sanitizeLoop n.data = n.data := by
  constructor
  · intro h
    have hd : ((("/var/run/netns/" : String).data ++ n.data)
          ++ ("." : String).data) ++ t.data
        = (((("/var/run/netns" : String).data ++ ("/" : String).data)
          ++ sanitizeLoop n.data) ++ ("." : String).data) ++ t.data :=
      congrArg String.data h
    rw [netns_folder_data] at hd
    have h1 := List.append_cancel_right hd
    have h2 := List.append_cancel_right h1
    exact (List.append_cancel_left h2).symm
  · intro h
    apply String.ext
    show ((("/var/run/netns/" : String).data ++ n.data)
          ++ ("." : String).data) ++ t.data
        = (((("/var/run/netns" : String).data ++ ("/" : String).data)
          ++ sanitizeLoop n.data) ++ ("." : String).data) ++ t.data
    rw [h, netns_folder_data]

lemma create_ret_eq (env : SysEnv) (fs : FsState) (n : String) (nn ip : Bool) :
    (CreateNetworkNamespace env fs n nn ip).ret
      = (!pathExists fs (globNsPath n "process")
          && !env.openErr (globNsPath n "process")) := by
  have hpe : pathExists (bindLoop env env.clonePid n fs kNamespaces)
      (globNsPath n "process") = pathExists fs (globNsPath n "process") :=
    pathExists_bindLoop env env.clonePid n _ kNamespaces fs
      (kNamespaces_glob_ne_process n)
  unfold CreateNetworkNamespace
  by_cases h1 : pathExists fs (globNsPath n "process") = true <;>
    by_cases h2 : env.openErr (globNsPath n "process") = true <;>
      simp [hpe, h1, h2]

lemma create_cloneFlags_eq (env : SysEnv) (fs : FsState) (n : String)
    (nn ip : Bool) :
    (CreateNetworkNamespace env fs n nn ip).cloneFlags
      = (if nn then kNamespaceTypes else kCloneNewNS) := by
  unfold CreateNetworkNamespace
  dsimp only
  split <;> rfl

lemma create_fail_fs (env : SysEnv) (fs : FsState) (n : String) (nn ip : Bool)
    (h : (pathExists fs (globNsPath n "process")
          || env.openErr (globNsPath n "process")) = true) :
    (CreateNetworkNamespace env fs n nn ip).fs
      = bindLoop env env.clonePid n fs kNamespaces := by
  have hpe : pathExists (bindLoop env env.clonePid n fs kNamespaces)
      (globNsPath n "process") = pathExists fs (globNsPath n "process") :=
    pathExists_bindLoop env env.clonePid n _ kNamespaces fs
      (kNamespaces_glob_ne_process n)
  unfold CreateNetworkNamespace
  rw [Bool.or_eq_true] at h
  rcases h with h | h
  · simp [hpe, h]
  · simp [h]

lemma create_succ_fs (env : SysEnv) (fs : FsState) (n : String) (nn ip : Bool)
    (h1 : pathExists fs (globNsPath n "process") = false)
    (h2 : env.openErr (globNsPath n "process") = false) :
    (CreateNetworkNamespace env fs n nn ip).fs
      = { symlinks := (bindLoop env env.clonePid n fs kNamespaces).symlinks,
          files := (bindLoop env env.clonePid n fs kNamespaces).files
            ++ [(globNsPath n "process",
                 String.mk ((toString env.clonePid).data.take
                   (min (env.writeBytes (toString env.clonePid).length)
                     (toString env.clonePid).length)))] } := by
  have hpe : pathExists (bindLoop env env.clonePid n fs kNamespaces)
      (globNsPath n "process") = pathExists fs (globNsPath n "process") :=
    pathExists_bindLoop env env.clonePid n _ kNamespaces fs
      (kNamespaces_glob_ne_process n)
  unfold CreateNetworkNamespace
  simp [hpe, h1, h2]

lemma create_succ_pidfile (env : SysEnv) (fs : FsState) (n : String)
    (nn ip : Bool)
    (h1 : pathExists fs (globNsPath n "process") = false)
    (h2 : env.openErr (globNsPath n "process") = false) :
    pathExists (CreateNetworkNamespace env fs n nn ip).fs
      (globNsPath n "process") = true := by
  rw [create_succ_fs env fs n nn ip h1 h2]
  simp [pathExists, List.any_append]

lemma switchLoop_spec (env : SysEnv) (fs : FsState) (n : String) :
    ∀ (tags : List String) (st : ProcState),
      (switchLoop env fs n st tags).2
        = tags.all (fun t => switchOk env fs (GetNamespacePath n t))
      ∧ (switchLoop env fs n st tags).1.joined
        = st.joined ++ ((tags.takeWhile fun t =>
            switchOk env fs (GetNamespacePath n t)).map
              fun t => GetNamespacePath n t) := by
  intro tags
  induction tags with
  | nil => intro st; exact ⟨rfl, by simp [switchLoop]⟩
  | cons t rest ih =>
      intro st
      by_cases h1 : (pathExists fs (GetNamespacePath n t)
          && !env.openErr (GetNamespacePath n t)) = true
      · by_cases h2 : env.setnsErr (GetNamespacePath n t) = true
        · constructor
          · simp [switchLoop, h1, h2, switchOk, List.all_cons]
          · simp [switchLoop, h1, h2, switchOk, List.takeWhile_cons]
        · have hok : switchOk env fs (GetNamespacePath n t) = true := by
            simp [switchOk, h1, h2]
          obtain ⟨ihret, ihjoin⟩ :=
            ih { st with joined := st.joined ++ [GetNamespacePath n t] }
          constructor
          · simp only [switchLoop, h1, h2]
            simp [ihret, List.all_cons, hok]
          · simp only [switchLoop, h1, h2]
            simp [ihjoin, List.takeWhile_cons, hok, List.append_assoc]
      · have hok : switchOk env fs (GetNamespacePath n t) = false := by
          simp only [switchOk]
          rw [Bool.eq_false_iff]
          intro hc
          rw [Bool.and_eq_true] at hc
          exact absurd hc.1 h1
        constructor
        · simp [switchLoop, h1, List.all_cons, hok]
        · simp [switchLoop, h1, List.takeWhile_cons, hok]

lemma pathExists_fs0 (p : String) : pathExists fs0 p = false := rfl

lemma bindLoop_clean (env : SysEnv) (pid : Nat) (n : String)
    (hse : ∀ p, env.symlinkErr p = false) :
    ∀ (tags : List String) (fs : FsState),
      (∀ t ∈ tags, pathExists fs (globNsPath n t) = false) →
      List.Pairwise (fun a b => a ≠ b) tags →
      (bindLoop env pid n fs tags).symlinks
        = fs.symlinks ++ tags.map fun t => (globNsPath n t, procNsPath pid t) := by
  intro tags
  induction tags with
  | nil => intro fs _ _; simp [bindLoop]
  | cons t rest ih =>
      intro fs hfresh hpw
      rw [List.pairwise_cons] at hpw
      have hstep : symlinkStep env fs (procNsPath pid t) (globNsPath n t)
          = { fs with symlinks :=
                fs.symlinks ++ [(globNsPath n t, procNsPath pid t)] } := by
        unfold symlinkStep
        rw [hfresh t (List.mem_cons_self _ _), hse]
        simp
      have hfr : ∀ u ∈ rest,
          pathExists { fs with symlinks :=
              fs.symlinks ++ [(globNsPath n t, procNsPath pid t)] }
            (globNsPath n u) = false := by
        intro u hu
        rw [pathExists_append_symlink]
        have hne : ((globNsPath n t, procNsPath pid t).1 == globNsPath n u) = false := by
          rw [beq_eq_false_iff_ne]
          exact globNsPath_tag_ne n (hpw.1 u hu)
        rw [hfresh u (List.mem_cons_of_mem _ hu), hne]
        rfl
      simp only [bindLoop]
      rw [hstep, ih _ hfr hpw.2]
      simp [List.append_assoc]

lemma create_succ_symlinks (env : SysEnv) (fs : FsState) (n : String)
    (nn ip : Bool)
    (h1 : pathExists fs (globNsPath n "process") = false)
    (h2 : env.openErr (globNsPath n "process") = false) :
    (CreateNetworkNamespace env fs n nn ip).fs.symlinks
      = (bindLoop env env.clonePid n fs kNamespaces).symlinks := by
  rw [create_succ_fs env fs n nn ip h1 h2]

/-- Claim C1, counterexample: for the name "dev-1" (which contains a
non-alphanumeric character), CreateNetworkNamespace persists the "net"
symlink at the raw-name path, which differs from the sanitized path
computed by GetNamespacePath; neither the sanitized "net" path nor the
sanitized "process" path exists after creation, so the paths written by
creation are NOT the ones later read by GetNamespaceDescriptor and
SwitchNamespace. -/
theorem C1_cex :
    GetNamespacePath "dev-1" "net" ≠ globNsPath "dev-1" "net"
    ∧ pathExists (CreateNetworkNamespace env0 fs0 "dev-1" true false).fs
        (globNsPath "dev-1" "net") = true
    ∧ pathExists (CreateNetworkNamespace env0 fs0 "dev-1" true false).fs
        (GetNamespacePath "dev-1" "net") = false
    ∧ pathExists (CreateNetworkNamespace env0 fs0 "dev-1" true false).fs
        (GetNamespacePath "dev-1" "process") = false :=
  ⟨by decide, by decide, by decide, by decide⟩

/-- Claim C1, amended: on a fresh filesystem with no spurious symlink or
open errors, CreateNetworkNamespace creates the three symlinks, in the
fixed order mnt, net, ipc, at the RAW-name destination paths
"/var/run/netns/<name>.<tag>" pointing at "/proc/<pid>/ns/<tag>", creates
the pid-record file at the raw-name "process" path, and succeeds; for
each tag, the path written by creation equals the sanitized path later
read by GetNamespaceDescriptor and SwitchNamespace if and only if the
name is a fixed point of sanitization (every character alphanumeric or
already an underscore). -/
theorem C1_create_paths (env : SysEnv) (name : String) (nn ip : Bool)
    (hse : ∀ p, env.symlinkErr p = false)
    (hoe : ∀ p, env.openErr p = false) :
    (CreateNetworkNamespace env fs0 name nn ip).fs.symlinks
      = [(globNsPath name "mnt", procNsPath env.clonePid "mnt"),
         (globNsPath name "net", procNsPath env.clonePid "net"),
         (globNsPath name "ipc", procNsPath env.clonePid "ipc")]
    ∧ pathExists (CreateNetworkNamespace env fs0 name nn ip).fs
        (globNsPath name "process") = true
    ∧ (CreateNetworkNamespace env fs0 name nn ip).ret = true
    ∧ (∀ t, globNsPath name t = GetNamespacePath name t
        ↔ sanitizeLoop name.data = name.data) := by
  refine ⟨?_, ?_, ?_, ?_⟩
  · rw [create_succ_symlinks env fs0 name nn ip (pathExists_fs0 _) (hoe _),
      bindLoop_clean env env.clonePid name hse kNamespaces fs0
        (fun t _ => pathExists_fs0 _) (by decide)]
    rfl
  · exact create_succ_pidfile env fs0 name nn ip (pathExists_fs0 _) (hoe _)
  · rw [create_ret_eq]
    rw [pathExists_fs0, hoe]
    rfl
  · intro t
    exact glob_eq_resolve_iff name t

/-- Claim C1, witness for the amended theorem at the all-alphanumeric name
"dev1" under the error-free oracle env0. -/
theorem C1_create_paths_witness :
    (CreateNetworkNamespace env0 fs0 "dev1" true false).fs.symlinks
      = [(globNsPath "dev1" "mnt", procNsPath env0.clonePid "mnt"),
         (globNsPath "dev1" "net", procNsPath env0.clonePid "net"),
         (globNsPath "dev1" "ipc", procNsPath env0.clonePid "ipc")]
    ∧ pathExists (CreateNetworkNamespace env0 fs0 "dev1" true false).fs
        (globNsPath "dev1" "process") = true
    ∧ (CreateNetworkNamespace env0 fs0 "dev1" true false).ret = true
    ∧ (∀ t, globNsPath "dev1" t = GetNamespacePath "dev1" t
        ↔ sanitizeLoop ("dev1" : String).data = ("dev1" : String).data) :=
  C1_create_paths env0 "dev1" true false (fun _ => rfl) (fun _ => rfl)

/-- Claim C2, counterexample: under envShort every write reports 0 bytes
written, so the write of the holder pid is short, yet
CreateNetworkNamespace still returns true — a short pid write does not
make creation fail. -/
theorem C2_cex :
    envShort.writeBytes (toString envShort.clonePid).length
        < (toString envShort.clonePid).length
    ∧ (CreateNetworkNamespace envShort fs0 "dev1" true false).ret = true :=
  ⟨by decide, by decide⟩

/-- Claim C2, amended: a short write of the holder pid is only logged;
whenever the exclusive create of the pid-record file succeeds,
CreateNetworkNamespace returns true regardless of how many bytes the
write reports. -/
theorem C2_short_write_nonfatal (env : SysEnv) (fs : FsState)
    (name : String) (nn ip : Bool) (w : Nat → Nat)
    (h1 : pathExists fs (globNsPath name "process") = false)
    (h2 : env.openErr (globNsPath name "process") = false) :
    (CreateNetworkNamespace { env with writeBytes := w } fs name nn ip).ret
      = true := by
  rw [create_ret_eq]
  have h2' : ({ env with writeBytes := w } : SysEnv).openErr
      (globNsPath name "process") = false := h2
  rw [h1, h2']
  rfl

/-- Claim C2, witness: the amended theorem at env0 with an all-short
write. -/
theorem C2_short_write_nonfatal_witness :
    (CreateNetworkNamespace { env0 with writeBytes := fun _ => 0 }
      fs0 "dev1" true false).ret = true :=
  C2_short_write_nonfatal env0 fs0 "dev1" true false (fun _ => 0) rfl rfl

/-- Claim C3: the pid-record file is created exclusively, so after a first
CreateNetworkNamespace for a name succeeds, a second call for the same
name (under any oracle) fails, while the first call's persisted files
remain in place: the regular files are unchanged and every symlink of the
first call is still present. -/
theorem C3_exclusive_pid_create (env₁ env₂ : SysEnv) (fs : FsState)
    (name : String) (nn₁ ip₁ nn₂ ip₂ : Bool)
    (h1 : pathExists fs (globNsPath name "process") = false)
    (h2 : env₁.openErr (globNsPath name "process") = false) :
    (CreateNetworkNamespace env₁ fs name nn₁ ip₁).ret = true
    ∧ (CreateNetworkNamespace env₂
        (CreateNetworkNamespace env₁ fs name nn₁ ip₁).fs name nn₂ ip₂).ret
      = false
    ∧ (CreateNetworkNamespace env₂
        (CreateNetworkNamespace env₁ fs name nn₁ ip₁).fs name nn₂ ip₂).fs.files
      = (CreateNetworkNamespace env₁ fs name nn₁ ip₁).fs.files
    ∧ ∀ e ∈ (CreateNetworkNamespace env₁ fs name nn₁ ip₁).fs.symlinks,
        e ∈ (CreateNetworkNamespace env₂
          (CreateNetworkNamespace env₁ fs name nn₁ ip₁).fs name nn₂ ip₂).fs.symlinks := by
  have hpid : pathExists (CreateNetworkNamespace env₁ fs name nn₁ ip₁).fs
      (globNsPath name "process") = true :=
    create_succ_pidfile env₁ fs name nn₁ ip₁ h1 h2
  have hcond : (pathExists (CreateNetworkNamespace env₁ fs name nn₁ ip₁).fs
      (globNsPath name "process")
      || env₂.openErr (globNsPath name "process")) = true := by
    rw [hpid]
    rfl
  have hfs2 := create_fail_fs env₂ (CreateNetworkNamespace env₁ fs name nn₁ ip₁).fs
    name nn₂ ip₂ hcond
  refine ⟨?_, ?_, ?_, ?_⟩
  · rw [create_ret_eq, h1, h2]
    rfl
  · rw [create_ret_eq, hpid]
    rfl
  · rw [hfs2, bindLoop_files]
  · intro e he
    rw [hfs2]
    obtain ⟨ex, hex⟩ := bindLoop_symlinks_extend env₂ env₂.clonePid name kNamespaces
      (CreateNetworkNamespace env₁ fs name nn₁ ip₁).fs
    rw [hex]
    exact List.mem_append_left _ he

/-- Claim C3, witness: both calls at the error-free oracle env0 on a fresh
filesystem with name "dev1". -/
theorem C3_exclusive_pid_create_witness :
    (CreateNetworkNamespace env0 fs0 "dev1" true false).ret = true
    ∧ (CreateNetworkNamespace env0
        (CreateNetworkNamespace env0 fs0 "dev1" true false).fs "dev1" true false).ret
      = false
    ∧ (CreateNetworkNamespace env0
        (CreateNetworkNamespace env0 fs0 "dev1" true false).fs "dev1" true false).fs.files
      = (CreateNetworkNamespace env0 fs0 "dev1" true false).fs.files
    ∧ ∀ e ∈ (CreateNetworkNamespace env0 fs0 "dev1" true false).fs.symlinks,
        e ∈ (CreateNetworkNamespace env0
          (CreateNetworkNamespace env0 fs0 "dev1" true false).fs "dev1" true false).fs.symlinks :=
  C3_exclusive_pid_create env0 env0 fs0 "dev1" true false true false rfl rfl

/-- Claim C4: SwitchNamespace processes the kinds in the fixed order
mnt, net, ipc; it returns true exactly when open and setns succeed for
all three kinds, and the namespaces joined by the calling process are
extended by precisely the successful prefix of that order — kinds
switched before the first failure remain switched and are never rolled
back. -/
theorem C4_switch_characterization (env : SysEnv) (fs : FsState)
    (name : String) (st : ProcState) :
    kNamespaces = ["mnt", "net", "ipc"]
    ∧ (SwitchNamespace env fs name st).ret
        = kNamespaces.all (fun t => switchOk env fs (GetNamespacePath name t))
    ∧ (SwitchNamespace env fs name st).st.joined
        = st.joined ++ ((kNamespaces.takeWhile fun t =>
            switchOk env fs (GetNamespacePath name t)).map
              fun t => GetNamespacePath name t) :=
  ⟨rfl, (switchLoop_spec env fs name kNamespaces st).1,
    (switchLoop_spec env fs name kNamespaces st).2⟩

/-- Claim C5, counterexample: the Unshare performed at the start of
SwitchNamespace requests the full namespace set kNamespaceTypes — it also
requests new network and IPC namespaces, so it does not unshare only the
mount namespace. -/
theorem C5_cex :
    (SwitchNamespace env0 fs0 "dev1" { joined := [] }).unshareFlags.newNet = true
    ∧ (SwitchNamespace env0 fs0 "dev1" { joined := [] }).unshareFlags.newIPC = true
    ∧ (SwitchNamespace env0 fs0 "dev1" { joined := [] }).unshareFlags ≠ kCloneNewNS :=
  ⟨rfl, rfl, by decide⟩

/-- Claim C5, amended: before switching, SwitchNamespace calls Unshare
with the full namespace set kNamespaceTypes (mount, network and IPC), and
the Unshare return value is ignored: the result of SwitchNamespace is
identical for every value the oracle returns for Unshare. -/
theorem C5_unshare_full_set_nonfatal (env : SysEnv) (fs : FsState)
    (name : String) (st : ProcState) (r : Int) :
    SwitchNamespace { env with unshareRet := r } fs name st
      = SwitchNamespace env fs name st
    ∧ (SwitchNamespace env fs name st).unshareFlags = kNamespaceTypes :=
  ⟨rfl, rfl⟩

/-- Claim C6: GetNamespacePath is a total pure function and equals the
spec's description of Resolve — the fixed root directory, then "/", then
the name with every non-alphanumeric character replaced by "_", then ".",
then the kind's tag. -/
theorem C6_resolve_refines_spec (name kind : String) :
    GetNamespacePath name kind = ResolveSpec name kind := by
  unfold GetNamespacePath ResolveSpec kNetNsFolder
  rw [sanitizeLoop_eq_map]

/-- Claim C7: GetNamespacePath is deterministic (equal inputs give equal
outputs), sanitization is idempotent (resolving an already-sanitized name
gives the same path as resolving the original), and any two names of
equal length that differ only at positions where both hold
non-alphanumeric characters resolve to the same path. -/
theorem C7_resolve_algebra :
    (∀ n₁ n₂ k₁ k₂ : String, n₁ = n₂ → k₁ = k₂ →
        GetNamespacePath n₁ k₁ = GetNamespacePath n₂ k₂)
    ∧ (∀ n k : String,
        GetNamespacePath (String.mk (sanitizeLoop n.data)) k
          = GetNamespacePath n k)
    ∧ (∀ n₁ n₂ k : String, n₁.data.length = n₂.data.length →
        ((n₁.data.zip n₂.data).all fun p =>
            p.1 == p.2 || (!isalnum p.1 && !isalnum p.2)) = true →
        GetNamespacePath n₁ k = GetNamespacePath n₂ k) := by
  refine ⟨?_, ?_, ?_⟩
  · intro n₁ n₂ k₁ k₂ hn hk
    rw [hn, hk]
  · intro n k
    unfold GetNamespacePath
    rw [show (String.mk (sanitizeLoop n.data)).data = sanitizeLoop n.data from rfl,
      sanitizeLoop_idem]
  · intro n₁ n₂ k hl hz
    unfold GetNamespacePath
    rw [sanitizeLoop_congr n₁.data n₂.data hl hz]

/-- Claim C7, witness: "a-b" and "a.b" differ only at a position where
both characters are non-alphanumeric and resolve to the same path. -/
theorem C7_resolve_algebra_witness :
    GetNamespacePath "a-b" "net" = GetNamespacePath "a.b" "net" :=
  C7_resolve_algebra.2.2 "a-b" "a.b" "net" (by decide) (by decide)

/-- Claim C8: symlink failures never abort CreateNetworkNamespace — the
returned status is independent of the symlink-error oracle, and whenever
the exclusive create of the pid-record file succeeds the operation
returns true, no matter which (even all) symlink calls failed. -/
theorem C8_symlink_failure_nonfatal (env : SysEnv) (fs : FsState)
    (name : String) (nn ip : Bool) (e : String → Bool) :
    (CreateNetworkNamespace { env with symlinkErr := e } fs name nn ip).ret
      = (CreateNetworkNamespace env fs name nn ip).ret
    ∧ (pathExists fs (globNsPath name "process") = false →
        env.openErr (globNsPath name "process") = false →
        (CreateNetworkNamespace { env with symlinkErr := e } fs name nn ip).ret
          = true) := by
  constructor
  · rw [create_ret_eq, create_ret_eq]
  · intro h1 h2
    rw [create_ret_eq]
    have h2' : ({ env with symlinkErr := e } : SysEnv).openErr
        (globNsPath name "process") = false := h2
    rw [h1, h2']
    rfl

/-- Claim C8, witness: with every symlink call failing, creation on a
fresh filesystem still returns true. -/
theorem C8_symlink_failure_nonfatal_witness :
    (CreateNetworkNamespace { env0 with symlinkErr := fun _ => true }
      fs0 "dev1" true false).ret = true :=
  (C8_symlink_failure_nonfatal env0 fs0 "dev1" true false (fun _ => true)).2
    rfl rfl

/-- Claim C9: the flags CreateNetworkNamespace passes to Clone depend only
on the new_namespace argument: kNamespaceTypes (new mount, network and
IPC namespaces) when it is true, kCloneNewNS (a new mount namespace only)
when it is false. -/
theorem C9_clone_flags (env : SysEnv) (fs : FsState) (name : String)
    (ip ip' : Bool) :
    (CreateNetworkNamespace env fs name true ip).cloneFlags = kNamespaceTypes
    ∧ (CreateNetworkNamespace env fs name false ip').cloneFlags = kCloneNewNS
    ∧ kNamespaceTypes = { newNS := true, newNet := true, newIPC := true }
    ∧ kCloneNewNS = { newNS := true, newNet := false, newIPC := false } := by
  refine ⟨?_, ?_, by decide, by decide⟩
  · rw [create_cloneFlags_eq]
    rfl
  · rw [create_cloneFlags_eq]
    rfl

/-- Claim C10: New returns no manager and attempts no root-directory
creation when its SysClient is NULL; with a non-NULL SysClient it
attempts the root directory, returning the manager exactly when that
succeeds and NULL when it fails. -/
theorem C10_facade_new (sc : SysEnv) (mkdirRet : Int) :
    NetworkNamespaceManager.New none mkdirRet = (none, false)
    ∧ NetworkNamespaceManager.New (some sc) 0 = (some ⟨sc⟩, true)
    ∧ (CreateNamespaceRootFolder mkdirRet = false →
        NetworkNamespaceManager.New (some sc) mkdirRet = (none, true)) := by
  refine ⟨rfl, ?_, ?_⟩
  · unfold NetworkNamespaceManager.New CreateNamespaceRootFolder
    simp
  · intro h
    unfold NetworkNamespaceManager.New
    rw [h]
    rfl

/-- Claim C10, witness: the facade at a concrete SysClient with a
succeeding and with a failing root-directory creation. -/
theorem C10_facade_new_witness :
    NetworkNamespaceManager.New none 1 = (none, false)
    ∧ NetworkNamespaceManager.New (some env0) 0 = (some ⟨env0⟩, true)
    ∧ NetworkNamespaceManager.New (some env0) 1 = (none, true) :=
  ⟨(C10_facade_new env0 1).1, (C10_facade_new env0 0).2.1,
    (C10_facade_new env0 1).2.2 (by decide)⟩
